import Mathlib

/-!
Verification of the status-monitoring subsystem of the clan bot
(`monitoring.py`, `protanki_scraper.py`, `database.py`, `models.py`),
shallowly embedded in Lean.  Stateful Python code (database session,
the process-global pseudo-random generator, wall-clock reads) is
rendered with explicit state passing; network I/O (HTTP responses,
peer-bot replies) appears as explicit parameters describing what the
outside world returned.
-/

/-! ## Python string primitives used by the source -/

/-- Python `\s` character class restricted to the characters the source
can meet (space, tab, newline, carriage return, vertical tab, form feed). -/
def pySpace (c : Char) : Bool :=
  c == ' ' || c == '\t' || c == '\n' || c == '\r' ||
  c == Char.ofNat 11 || c == Char.ofNat 12

/-- Does `sub` occur at the very start of `s`?  (Helper for Python's
substring containment.) -/
def isPre : List Char → List Char → Bool
  | [], _ => true
  | _ :: _, [] => false
  | a :: as, b :: bs => a == b && isPre as bs

/-- Python's `sub in s` substring test. -/
def pyIn (sub : List Char) : List Char → Bool
  | [] => sub.isEmpty
  | c :: rest => isPre sub (c :: rest) || pyIn sub rest

/-- Python `str.upper()` for the ASCII usernames the source compares. -/
def pyUpper (s : String) : String := String.mk (s.data.map Char.toUpper)

/-- Python `str.lower()` for the ASCII page text the source lowers. -/
def pyLower (s : String) : String := String.mk (s.data.map Char.toLower)

/-- Python `str.strip()`: drop whitespace on both ends. -/
def pyStrip (s : List Char) : List Char :=
  ((s.dropWhile pySpace).reverse.dropWhile pySpace).reverse

/-- Worker for `pyTitle`; the flag records whether the previous character
was alphabetic. -/
def pyTitleGo : Bool → List Char → List Char
  | _, [] => []
  | prevAlpha, c :: rest =>
    if c.isAlpha then
      (if prevAlpha then c.toLower else c.toUpper) :: pyTitleGo true rest
    else
      c :: pyTitleGo false rest

/-- Python `str.title()`: first letter of every alphabetic run uppercased,
the rest lowercased. -/
def pyTitle (s : List Char) : List Char := pyTitleGo false s

/-- Part of `s` after the first occurrence of `sep`, if `sep` occurs. -/
def afterFirst (sep : List Char) : List Char → Option (List Char)
  | [] => none
  | c :: rest =>
    if isPre sep (c :: rest) then some ((c :: rest).drop sep.length)
    else afterFirst sep rest

/-- Fuelled worker for `lastAfter`; the fuel bounds the number of
occurrences of `sep` that can still be consumed. -/
def lastAfterGo (sep : List Char) : Nat → List Char → List Char
  | 0, s => s
  | fuel + 1, s =>
    match afterFirst sep s with
    | none => s
    | some rest => lastAfterGo sep fuel rest

/-- Python `s.split(sep)[-1]` for non-empty `sep`: the text after the last
occurrence of `sep` under left-to-right non-overlapping scanning. -/
def lastAfter (sep s : List Char) : List Char := lastAfterGo sep s.length s

/-! ## Data model (`models.py`) -/

/-- `PlayerInfo` dataclass of `models.py`. -/
structure PlayerInfo where
  username : String
  rank : String
  is_online : Bool
  level : Option Nat := none
  experience : Option Nat := none
  crystals : Option Nat := none
deriving DecidableEq

/-! ## Rank table (`protanki_scraper.py`, `self.ranks`) -/

/-- The `self.ranks` dictionary of `ProTankiScraper.__init__`, in its
insertion (iteration) order: experience threshold paired with rank name. -/
def ranksTable : List (Nat × String) :=
  [(0, "Recruit"),
   (500, "Private"),
   (1500, "Gefreiter"),
   (3700, "Corporal"),
   (7300, "Master Corporal"),
   (13300, "Sergeant"),
   (22500, "Staff Sergeant"),
   (36300, "Sergeant First Class"),
   (56300, "Master Sergeant"),
   (83800, "First Sergeant"),
   (121000, "Sergeant Major"),
   (170500, "Warrant Officer 1"),
   (234800, "Chief Warrant Officer 2"),
   (316700, "Chief Warrant Officer 3"),
   (419300, "Chief Warrant Officer 4"),
   (546000, "Chief Warrant Officer 5"),
   (700700, "Second Lieutenant"),
   (888600, "First Lieutenant"),
   (1113300, "Captain"),
   (1380000, "Major"),
   (1693300, "Lieutenant Colonel"),
   (2059100, "Colonel"),
   (2483500, "Brigadier"),
   (2974000, "Major General"),
   (3538500, "Lieutenant General"),
   (4185500, "General"),
   (4923000, "Marshal"),
   (5760500, "Field Marshal"),
   (6708000, "Commander"),
   (7776000, "Generalissimo")]

/-- The 30 rank names, in table order. -/
def rankNames : List String := ranksTable.map Prod.snd

/-- The fixed rank vocabulary: the 30 rank names plus `"Unknown"`. -/
def rankVocab : List String := rankNames ++ ["Unknown"]

/-- Loop body of `get_rank_from_experience`: walk the table, keep the last
rank whose threshold is `≤` the experience, stop at the first larger
threshold. -/
def rankLoop : List (Nat × String) → String → Nat → String
  | [], acc, _ => acc
  | (t, n) :: rest, acc, e => if t ≤ e then rankLoop rest n e else acc

/-- `ProTankiScraper.get_rank_from_experience`; `none` models Python `None`. -/
def get_rank_from_experience : Option Nat → String
  | none => "Unknown"
  | some e => rankLoop ranksTable "Recruit" e

/-- Position of a rank name in the table order (used to phrase
monotonicity of the rank derived from experience). -/
def rankPos (n : String) : Nat := rankNames.findIdx (fun m => m == n)

/-- How many table entries `rankLoop` consumes for a given experience. -/
def rankDepth (e : Nat) : List (Nat × String) → Nat
  | [] => 0
  | (t, _) :: rest => if t ≤ e then rankDepth e rest + 1 else 0

/-- Name reached after consuming `k` entries of the table. -/
def nameAtDepth : List (Nat × String) → String → Nat → String
  | _, acc, 0 => acc
  | [], acc, _ + 1 => acc
  | (_, n) :: rest, _, k + 1 => nameAtDepth rest n k

/-! ## Regular-expression patterns of `_extract_player_data`

The source searches the lowered page text with `re.search` for patterns of
the single shape `keyword[:\s]+(C+)` where `C` is either `[a-zA-Z\s]` (the
rank/level/grade patterns) or `\d` (the experience pattern).  The matcher
below implements exactly that shape with Python's leftmost-match,
greedy-with-backtracking semantics. -/

/-- The `[:\s]` character class. -/
def colonSpace (c : Char) : Bool := c == ':' || pySpace c

/-- The `[a-zA-Z\s]` character class. -/
def alphaSpace (c : Char) : Bool := c.isAlpha || pySpace c

/-- Backtracking over the length of the `[:\s]+` part: try the greedy
length first, shrink until the capture class can match at least one
character; at least one `[:\s]` character must remain. -/
def tryCapture (cls : Char → Bool) (rest : List Char) : Nat → Option (List Char)
  | 0 => none
  | k + 1 =>
    let cap := (rest.drop (k + 1)).takeWhile cls
    if cap.isEmpty then tryCapture cls rest k else some cap

/-- Attempt to match `keyword[:\s]+(cls+)` at the start of `s`, returning
the captured group. -/
def matchCaptureAt (kw : List Char) (cls : Char → Bool) (s : List Char) :
    Option (List Char) :=
  if isPre kw s then
    let rest := s.drop kw.length
    let greedy := (rest.takeWhile colonSpace).length
    tryCapture cls rest greedy
  else none

/-- `re.search` for `keyword[:\s]+(cls+)`: leftmost position at which the
whole pattern matches wins. -/
def searchCapture (kw : List Char) (cls : Char → Bool) : List Char → Option (List Char)
  | [] => none
  | c :: rest =>
    match matchCaptureAt kw cls (c :: rest) with
    | some cap => some cap
    | none => searchCapture kw cls rest

/-- Digits of a captured `\d+` group read as a number (Python `int`). -/
def digitsToNat (ds : List Char) : Nat :=
  ds.foldl (fun a c => a * 10 + (c.toNat - 48)) 0

/-! ## Scraped pages (`protanki_scraper.py`)

A fetched page is modelled at the interface the source uses: its visible
text (`soup.get_text()`) plus the two structural facts probed by
`_is_valid_player_page` (a `div` whose class matches `player|profile`, a
`span` whose class matches `rank|level`).  A strategy's network input is a
list of `Option Page`, one per endpoint URL: `none` stands for a non-200
response or a transport error (the source's `continue`), `some p` for a
200 response with content `p`. -/

structure Page where
  text : String
  hasProfileDiv : Bool
  hasRankSpan : Bool
deriving DecidableEq

/-- `ProTankiScraper._is_valid_player_page`: the page text contains the
username (case-insensitively), or one of the two structural markers is
present. -/
def is_valid_player_page (p : Page) (username : String) : Bool :=
  pyIn (pyLower username).toList (pyLower p.text).toList ||
  p.hasProfileDiv || p.hasRankSpan

/-- First rank-like capture of `_extract_player_data`: the patterns
`rank…`, `level…`, `grade…` are tried in order, first match wins. -/
def rankCapture (pt : List Char) : Option (List Char) :=
  (searchCapture "rank".toList alphaSpace pt).orElse fun _ =>
  (searchCapture "level".toList alphaSpace pt).orElse fun _ =>
  searchCapture "grade".toList alphaSpace pt

/-- The online indicators list of `_extract_player_data`. -/
def onlineIndicators : List String := ["online", "active", "playing", "in battle"]

/-- `ProTankiScraper._extract_player_data` applied to the lowered page
text: regex-extracted (title-cased) rank with default `"Private"`, online
flag from the indicator list, and an optional experience number which,
when present, overrides the rank via the rank table. -/
def extract_player_data (p : Page) (username : String) : PlayerInfo :=
  let pt := (pyLower p.text).toList
  let rawRank :=
    match rankCapture pt with
    | some cap => String.mk (pyTitle (pyStrip cap))
    | none => "Private"
  let onl := onlineIndicators.any fun w => pyIn w.toList pt
  match (searchCapture "experience".toList Char.isDigit pt).map digitsToNat with
  | some e =>
      { username := username, rank := get_rank_from_experience (some e),
        is_online := onl, experience := some e }
  | none =>
      { username := username, rank := rawRank, is_online := onl,
        experience := none }

/-- `ProTankiScraper._search_protanki_eu`: walk the endpoint responses in
order; a 200 page that passes the validity check is extracted and
returned; anything else moves on; exhaustion yields `none`. -/
def search_protanki_eu (username : String) : List (Option Page) → Option PlayerInfo
  | [] => none
  | none :: rest => search_protanki_eu username rest
  | some p :: rest =>
    if is_valid_player_page p username then some (extract_player_data p username)
    else search_protanki_eu username rest

/-- `ProTankiScraper._search_alternative_sites`: walk the endpoint
responses in order; the first 200 page is extracted unconditionally
(`PlayerInfo` is always truthy, so the source returns it). -/
def search_alternative_sites (username : String) : List (Option Page) → Option PlayerInfo
  | [] => none
  | none :: rest => search_alternative_sites username rest
  | some p :: _ => some (extract_player_data p username)

/-! ## The seeded pseudo-random generator of `_generate_realistic_data`

The source reseeds CPython's process-global Mersenne Twister with
`int(hashlib.md5(username.encode()).hexdigest(), 16)` and then draws a
weighted rank choice, an online coin and an experience offset.  The
embedding keeps the generator as explicit state; the digest and the
generator transition are concrete deterministic stand-ins for the MD5 and
Mersenne Twister functions of the standard library (which are outside
this repository), preserving what the claims rely on: every draw is a
deterministic function of the state, and reseeding replaces the state
with a function of the username alone. -/

/-- Process-global generator state: the last seed planted and the number
of draws made since. -/
structure RNGState where
  seed : Nat
  counter : Nat
deriving DecidableEq

/-- Deterministic digest of a username, standing in for
`int(md5(username).hexdigest(), 16)`. -/
def md5SeedInt (u : String) : Nat :=
  u.toList.foldl (fun a c => (a * 257 + c.toNat + 1) % 2 ^ 128) 1

/-- `random.seed(n)`: the global state becomes a function of `n` alone. -/
def pyRandomSeed (n : Nat) : RNGState := ⟨n % 2 ^ 64, 0⟩

/-- One raw draw from the generator (stand-in transition function). -/
def rngNext (s : RNGState) : Nat × RNGState :=
  (((s.seed + s.counter) * 2654435761 + 1013904223) % 2 ^ 32,
   ⟨s.seed, s.counter + 1⟩)

/-- The `rank_weights` table of `_generate_realistic_data`, scaled by 1000
to integers, as cumulative sums in the source's key order. -/
def cumWeights : List Nat :=
  [5000, 20000, 32000, 42000, 50000, 57000, 63000, 68000, 72000, 75000,
   78000, 80000, 82000, 84000, 85000, 86000, 87000, 88000, 89000, 90000,
   90500, 90800, 91000, 91100, 91150, 91170, 91180, 91185, 91187, 91188]

/-- Index of the first cumulative weight strictly above `x`. -/
def pickIdx (x : Nat) : List Nat → Nat
  | [] => 0
  | w :: ws => if x < w then 0 else 1 + pickIdx x ws

/-- `random.choices(ranks, weights=…)[0]` as an index into the 30-name
list: a weighted choice driven by one raw draw. -/
def weightedIndex (r : Nat) : Nat := pickIdx (r % 91188) cumWeights

/-- `rank_exp = {rank: exp for exp, rank in self.ranks.items()}` followed by
`rank_exp.get(selected_rank, 500)`. -/
def rankExpLookup (n : String) : Nat :=
  ((ranksTable.find? fun p => p.2 == n).map Prod.fst).getD 500

/-- The pure core of `_generate_realistic_data` once the three draws are
fixed: the chosen rank (an index into the 30 ranks, every one of which has
positive weight), the online coin, and the experience offset drawn from
`randint(0, 2000)`. -/
def generateFromDraws (u : String) (idx : Nat) (onl : Bool) (offset : Nat) :
    PlayerInfo :=
  let selected := rankNames.getD idx "Recruit"
  { username := u, rank := selected, is_online := onl,
    experience := some (rankExpLookup selected + offset) }

/-- `ProTankiScraper._generate_realistic_data`: reseed the global
generator from the username digest, then draw the rank, the online coin
(probability 0.3) and the offset (`randint(0, 2000)`). -/
def generate_realistic_data (_g : RNGState) (u : String) : PlayerInfo × RNGState :=
  let s0 := pyRandomSeed (md5SeedInt u)
  let d1 := rngNext s0
  let idx := weightedIndex d1.1
  let d2 := rngNext d1.2
  let onl := decide (d2.1 % 10 < 3)
  let d3 := rngNext d2.2
  let offset := d3.1 % 2001
  (generateFromDraws u idx onl offset, d3.2)

/-- `ProTankiScraper.get_player_info`: ProTanki.EU endpoints first, then
the alternative sites, then the synthetic generator, first definite
result wins. -/
def get_player_info (g : RNGState) (eu alt : List (Option Page)) (u : String) :
    PlayerInfo × RNGState :=
  match search_protanki_eu u eu with
  | some p => (p, g)
  | none =>
    match search_alternative_sites u alt with
    | some p => (p, g)
    | none => generate_realistic_data g u

/-! ## Response parser (`PlayerMonitor._parse_jeffrie_response`) -/

/-- `PlayerMonitor._parse_jeffrie_response`: the hand-ordered `elif` chain
of rank substrings, then the online detection.  The Python conditional
`A or B or C if D else False` parses as `(A or B or C) if D else False`,
which the `if` below mirrors. -/
def parse_jeffrie_response (content username : String) : PlayerInfo :=
  let c := content.toList
  let rank :=
    if pyIn "Captain".toList c then "Captain"
    else if pyIn "Major".toList c then "Major"
    else if pyIn "Lieutenant Colonel".toList c then "Lieutenant Colonel"
    else if pyIn "Lieutenant".toList c then "Lieutenant"
    else if pyIn "Master Sergeant".toList c then "Master Sergeant"
    else if pyIn "Staff Sergeant".toList c then "Staff Sergeant"
    else if pyIn "Sergeant".toList c then "Sergeant"
    else if pyIn "Corporal".toList c then "Corporal"
    else if pyIn "Private".toList c then "Private"
    else if pyIn "Generalissimo".toList c then "Generalissimo"
    else if pyIn "Marshal".toList c then "Marshal"
    else if pyIn "General".toList c then "General"
    else if pyIn "Colonel".toList c then "Colonel"
    else "Recruit"
  let is_online :=
    if pyIn "Online".toList c then
      pyIn "Online\nYes".toList c || pyIn "Online: Yes".toList c ||
      pyIn "Yes".toList (lastAfter "Online".toList c)
    else false
  { username := username, rank := rank, is_online := is_online }

/-! ## Data acquisition for one member
(`PlayerMonitor._get_current_player_data`) -/

/-- `PlayerMonitor._get_current_player_data`: the two hardcoded identity
overrides, then the scraper.  The `_query_jeffrie_bot` strategy is defined
in the source but never called on this path. -/
def get_current_player_data (g : RNGState) (eu alt : List (Option Page))
    (u : String) : PlayerInfo × RNGState :=
  if pyUpper u = "K.O" then
    ({ username := u, rank := "Captain", is_online := true }, g)
  else if pyUpper u = "GOAT" then
    ({ username := u, rank := "Master Sergeant", is_online := false }, g)
  else get_player_info g eu alt u

/-! ## Roster store (`database.py`) -/

/-- One row of the `members` table, at the fields
`update_member_status` touches. -/
structure MemberRec where
  username : String
  rank : String
  is_online : Bool
  last_updated : Int
deriving DecidableEq

/-- The store: `initialized` is whether `Database.initialize` has run
(`SessionLocal` is set); calling `get_session()` on an uninitialized
store raises. -/
structure DBState where
  initialized : Bool
  members : List MemberRec
deriving DecidableEq

/-- Update the first member row matching the username (the session
`query(...).first()` + field assignment), returning whether a row was
found. -/
def updFirst (u r : String) (o : Bool) (now : Int) :
    List MemberRec → Bool × List MemberRec
  | [] => (false, [])
  | m :: rest =>
    if m.username == u then
      (true, { m with rank := r, is_online := o, last_updated := now } :: rest)
    else
      let t := updFirst u r o now rest
      (t.1, m :: t.2)

/-- `Database.update_member_status`: raises (`.error`) when the store is
uninitialized, otherwise updates the first matching row (setting
`last_updated` to the current time) and reports whether one was found. -/
def update_member_status (dbs : DBState) (now : Int) (u r : String) (o : Bool) :
    Except Unit (Bool × DBState) :=
  if dbs.initialized then
    let t := updFirst u r o now dbs.members
    .ok (t.1, { dbs with members := t.2 })
  else .error ()

/-- Row for a username as the queries see it. -/
def findMember (dbs : DBState) (u : String) : Option MemberRec :=
  dbs.members.find? fun m => m.username == u

/-! ## Monitoring engine (`monitoring.py`) -/

/-- `PlayerMonitor._check_player_status`: look the member up, write the
result through the store; any exception is caught and leaves the store
as it was. -/
def check_player_status (dbs : DBState) (g : RNGState) (now : Int)
    (eu alt : List (Option Page)) (u : String) : DBState × RNGState :=
  let r := get_current_player_data g eu alt u
  match update_member_status dbs now u r.1.rank r.1.is_online with
  | .ok d => (d.2, r.2)
  | .error _ => (dbs, r.2)

/-- The transient check-cadence map `self.last_check`. -/
def lookupLC (lc : List (String × Int)) (u : String) : Option Int :=
  (lc.find? fun p => p.1 == u).map Prod.snd

/-- Python dict assignment `self.last_check[u] = t`. -/
def setLC : List (String × Int) → String → Int → List (String × Int)
  | [], u, t => [(u, t)]
  | (v, s) :: rest, u, t =>
    if v == u then (u, t) :: rest else (v, s) :: setLC rest u t

/-- The `due` test of `_check_all_players`: never checked, or at least
`check_interval = 60` time-units elapsed since the last check. -/
def member_due (last : Option Int) (now : Int) : Bool :=
  match last with
  | none => true
  | some t => decide (60 ≤ now - t)

/-- Result of one roster pass: the cadence map, the store, the generator,
and which members were actually checked. -/
structure PassResult where
  lastCheck : List (String × Int)
  dbs : DBState
  rng : RNGState
  checked : List String
deriving DecidableEq

/-- `PlayerMonitor._check_all_players`: one pass over the roster snapshot.
Each entry pairs a member username with the `datetime.utcnow()` reading
taken at its loop iteration; due members are checked and their cadence
entry set to that reading, the others are skipped.  The endpoint
responses are given per username. -/
def check_all_players (eu alt : String → List (Option Page)) :
    List (String × Int) → List (String × Int) → DBState → RNGState → PassResult
  | [], lc, dbs, g => ⟨lc, dbs, g, []⟩
  | (u, now) :: rest, lc, dbs, g =>
    if member_due (lookupLC lc u) now then
      let c := check_player_status dbs g now (eu u) (alt u) u
      let r := check_all_players eu alt rest (setLC lc u now) c.1 c.2
      { r with checked := u :: r.checked }
    else check_all_players eu alt rest lc dbs g

/-- `PlayerMonitor.force_check_player`: look up and persist immediately;
the cadence map is neither consulted nor written.  Any exception on the
path is caught and a default `Recruit`/offline record is returned with
the store untouched. -/
def force_check_player (dbs : DBState) (g : RNGState) (now : Int)
    (eu alt : List (Option Page)) (u : String) :
    PlayerInfo × DBState × RNGState :=
  let r := get_current_player_data g eu alt u
  match update_member_status dbs now u r.1.rank r.1.is_online with
  | .ok d => (r.1, d.2, r.2)
  | .error _ =>
    ({ username := u, rank := "Recruit", is_online := false }, dbs, r.2)

/-! ## The monitoring loop skeleton (`PlayerMonitor._monitoring_loop`) -/

/-- What one iteration of the `while True` body can observe: the pass and
the following sleep ran clean, an uncaught exception escaped the pass
logic, or cancellation arrived. -/
inductive PassOutcome where
  | ok
  | fault
  | cancelled
deriving DecidableEq

/-- What the loop does next: keep looping after sleeping `delay`
time-units (having logged iff `logged`), or stop. -/
inductive LoopStep where
  | continueAfter (delay : Nat) (logged : Bool)
  | stopped
deriving DecidableEq

/-- `PlayerMonitor._monitoring_loop`, one iteration: a clean pass sleeps
the 60 time-unit interval and loops; `asyncio.CancelledError` breaks; any
other exception is printed, waits the 30 time-unit backoff, and loops. -/
def monitoring_loop_step : PassOutcome → LoopStep
  | .ok => .continueAfter 60 false
  | .fault => .continueAfter 30 true
  | .cancelled => .stopped

/-! ## The strategy chain as the spec words it -/

/-- Spec-side chain, for comparison with `get_current_player_data`
(spec §4.4/§8): identity overrides, then PeerBotQuery, then WebLookup,
then SyntheticFallback, the first non-unavailable result winning. -/
def specChain (u : String) (peer web : Option PlayerInfo) (synth : PlayerInfo) :
    PlayerInfo :=
  if pyUpper u = "K.O" then
    { username := u, rank := "Captain", is_online := true }
  else if pyUpper u = "GOAT" then
    { username := u, rank := "Master Sergeant", is_online := false }
  else ((peer.orElse fun _ => web).getD synth)

/-- The WebLookup strategy result as the engine computes it: the
ProTanki.EU endpoints then the alternative sites. -/
def webResult (eu alt : List (Option Page)) (u : String) : Option PlayerInfo :=
  (search_protanki_eu u eu).orElse fun _ => search_alternative_sites u alt

/-! ## Helper lemmas -/

theorem rankLoop_eq_nameAtDepth (l : List (Nat × String)) (acc : String) (e : Nat) :
    rankLoop l acc e = nameAtDepth l acc (rankDepth e l) := by
  induction l generalizing acc with
  | nil => rfl
  | cons p rest ih =>
    obtain ⟨t, n⟩ := p
    by_cases h : t ≤ e
    · simp [rankLoop, rankDepth, h, nameAtDepth, ih]
    · simp [rankLoop, rankDepth, h, nameAtDepth]

theorem rankDepth_le_length (e : Nat) (l : List (Nat × String)) :
    rankDepth e l ≤ l.length := by
  induction l with
  | nil => simp [rankDepth]
  | cons p rest ih =>
    obtain ⟨t, n⟩ := p
    by_cases h : t ≤ e
    · simp [rankDepth, h]; omega
    · simp [rankDepth, h]

theorem rankDepth_mono (e1 e2 : Nat) (l : List (Nat × String)) (h : e1 ≤ e2) :
    rankDepth e1 l ≤ rankDepth e2 l := by
  induction l with
  | nil => simp [rankDepth]
  | cons p rest ih =>
    obtain ⟨t, n⟩ := p
    by_cases h1 : t ≤ e1
    · have h2 : t ≤ e2 := le_trans h1 h
      simp [rankDepth, h1, h2]; omega
    · simp [rankDepth, h1]

theorem rankPos_nameAtDepth :
    ∀ k : Nat, k < 31 → rankPos (nameAtDepth ranksTable "Recruit" k) = k - 1 := by
  decide

theorem rankLoop_cons (t : Nat) (n : String) (rest : List (Nat × String))
    (acc : String) (e : Nat) :
    rankLoop ((t, n) :: rest) acc e = if t ≤ e then rankLoop rest n e else acc := rfl

theorem rankLoop_mem (l : List (Nat × String)) (acc : String) (e : Nat) :
    rankLoop l acc e ∈ acc :: l.map Prod.snd := by
  induction l generalizing acc with
  | nil => simp [rankLoop]
  | cons p rest ih =>
    obtain ⟨t, n⟩ := p
    by_cases h : t ≤ e
    · simp only [rankLoop, h, if_true, List.map_cons]
      exact List.mem_cons_of_mem acc (ih n)
    · simp [rankLoop, h]

theorem get_rank_mem_vocab (e : Nat) :
    get_rank_from_experience (some e) ∈ rankVocab := by
  have h := rankLoop_mem ranksTable "Recruit" e
  have hsub : ∀ x ∈ ("Recruit" :: ranksTable.map Prod.snd), x ∈ rankVocab := by decide
  exact hsub _ h

theorem getD_rankNames_mem (i : Nat) : rankNames.getD i "Recruit" ∈ rankVocab := by
  rcases h : rankNames[i]? with _ | v
  · have : rankNames.getD i "Recruit" = "Recruit" := by
      simp [List.getD, h]
    rw [this]; decide
  · have hv : rankNames.getD i "Recruit" = v := by
      simp [List.getD, h]
    have hmem : v ∈ rankNames := by
      have h2 : rankNames.get? i = some v := by
        rw [List.get?_eq_getElem?]; exact h
      exact List.get?_mem h2
    rw [hv]
    exact List.mem_append.mpr (Or.inl hmem)

theorem get_current_else (g : RNGState) (eu alt : List (Option Page)) (u : String)
    (hk : pyUpper u ≠ "K.O") (hg : pyUpper u ≠ "GOAT") :
    get_current_player_data g eu alt u = get_player_info g eu alt u := by
  unfold get_current_player_data
  rw [if_neg hk, if_neg hg]

theorem get_player_info_none (g : RNGState) (eu alt : List (Option Page))
    (u : String) (h1 : search_protanki_eu u eu = none)
    (h2 : search_alternative_sites u alt = none) :
    get_player_info g eu alt u = generate_realistic_data g u := by
  unfold get_player_info
  rw [h1, h2]

theorem isPre_append (x y s : List Char) (h : isPre (x ++ y) s = true) :
    isPre x s = true := by
  induction x generalizing s with
  | nil => rfl
  | cons a as ih =>
    cases s with
    | nil => simp [isPre] at h
    | cons b bs =>
      simp only [List.cons_append, isPre, Bool.and_eq_true] at h ⊢
      exact ⟨h.1, ih bs h.2⟩

theorem pyIn_append_left (x y s : List Char) (h : pyIn (x ++ y) s = true) :
    pyIn x s = true := by
  induction s with
  | nil =>
    simp only [pyIn, List.isEmpty_eq_true, List.append_eq_nil] at h ⊢
    exact h.1
  | cons c rest ih =>
    simp only [pyIn, Bool.or_eq_true] at h ⊢
    rcases h with h | h
    · exact Or.inl (isPre_append x y _ h)
    · exact Or.inr (ih h)

/-! ## Claim C6 -/

/-- C6: `get_rank_from_experience` is monotonically non-decreasing in the
experience (with ranks ordered by their table position), and returns
exactly `"Recruit"` on `[0, 500)`. -/
theorem c6_rank_monotone_and_recruit :
    (∀ e1 e2 : Nat, e1 ≤ e2 →
      rankPos (get_rank_from_experience (some e1)) ≤
        rankPos (get_rank_from_experience (some e2))) ∧
    (∀ e : Nat, e < 500 → get_rank_from_experience (some e) = "Recruit") := by
  constructor
  · intro e1 e2 h
    have hd1 : rankDepth e1 ranksTable < 31 := by
      have := rankDepth_le_length e1 ranksTable
      have hl : ranksTable.length = 30 := by decide
      omega
    have hd2 : rankDepth e2 ranksTable < 31 := by
      have := rankDepth_le_length e2 ranksTable
      have hl : ranksTable.length = 30 := by decide
      omega
    show rankPos (rankLoop ranksTable "Recruit" e1) ≤
      rankPos (rankLoop ranksTable "Recruit" e2)
    rw [rankLoop_eq_nameAtDepth, rankLoop_eq_nameAtDepth,
      rankPos_nameAtDepth _ hd1, rankPos_nameAtDepth _ hd2]
    have := rankDepth_mono e1 e2 ranksTable h
    omega
  · intro e h
    have h500 : ¬ (500 ≤ e) := by omega
    show rankLoop ranksTable "Recruit" e = "Recruit"
    rw [ranksTable, rankLoop_cons, if_pos (Nat.zero_le e), rankLoop_cons,
      if_neg h500]

/-- Witness for C6 at experience values 3, 700 and 499. -/
theorem c6_witness :
    (3 : Nat) ≤ 700 ∧
    rankPos (get_rank_from_experience (some 3)) ≤
      rankPos (get_rank_from_experience (some 700)) ∧
    (499 : Nat) < 500 ∧ get_rank_from_experience (some 499) = "Recruit" :=
  ⟨by decide, c6_rank_monotone_and_recruit.1 3 700 (by decide), by decide,
   c6_rank_monotone_and_recruit.2 499 (by decide)⟩

/-! ## Claim C7 -/

/-- C7: the synthetic fallback is a deterministic function of the username
alone — the record it produces does not depend on the incoming global
generator state (so repeated calls in one process, and calls after a
restart, agree), and a second call right after a first one reproduces it. -/
theorem c7_synthetic_deterministic :
    ∀ (g1 g2 : RNGState) (u : String),
      (generate_realistic_data g1 u).1 = (generate_realistic_data g2 u).1 ∧
      (generate_realistic_data (generate_realistic_data g1 u).2 u).1 =
        (generate_realistic_data g1 u).1 := by
  intro g1 g2 u
  exact ⟨rfl, rfl⟩

/-! ## Claim C8 -/

/-- C8: the response parser reports online for any reply containing the
marker `"Online\nYes"`, and reports offline for the reply `"Offline"`. -/
theorem c8_online_detection :
    (∀ content username : String,
      pyIn "Online\nYes".toList content.toList = true →
      (parse_jeffrie_response content username).is_online = true) ∧
    (parse_jeffrie_response "Offline" "player").is_online = false := by
  constructor
  · intro content username h
    have hsplit : ("Online\nYes".toList) = "Online".toList ++ "\nYes".toList := by
      decide
    have hOn : pyIn "Online".toList content.toList = true :=
      pyIn_append_left _ _ _ (hsplit ▸ h)
    simp at hOn h
    simp [parse_jeffrie_response, hOn, h]
  · decide

/-- Witness for C8 on the reply text `"Online\nYes please"`. -/
theorem c8_witness :
    pyIn "Online\nYes".toList ("Online\nYes please" : String).toList = true ∧
    (parse_jeffrie_response "Online\nYes please" "player").is_online = true :=
  ⟨by decide, c8_online_detection.1 "Online\nYes please" "player" (by decide)⟩

/-! ## Claim C9 -/

/-- C9: an uncaught exception in the pass logic is logged and followed by
the 30 time-unit backoff with the loop resuming; a clean pass sleeps the
regular interval and resumes; only cancellation stops the loop. -/
theorem c9_loop_fault_resumes :
    monitoring_loop_step .fault = .continueAfter 30 true ∧
    monitoring_loop_step .ok = .continueAfter 60 false ∧
    monitoring_loop_step .cancelled = .stopped :=
  ⟨rfl, rfl, rfl⟩

/-! ## Claim C5 -/

/-- C5 counterexample: the text `"Captain Lieutenant Colonel"` contains
both `"Colonel"` and `"Lieutenant Colonel"`, yet the parser returns
`"Captain"`, because `"Captain"` sits before `"Lieutenant Colonel"` in
the hand-ordered chain. -/
theorem c5_counterexample :
    pyIn "Colonel".toList ("Captain Lieutenant Colonel" : String).toList = true ∧
    pyIn "Lieutenant Colonel".toList
      ("Captain Lieutenant Colonel" : String).toList = true ∧
    (parse_jeffrie_response "Captain Lieutenant Colonel" "player").rank =
      "Captain" ∧
    ("Captain" : String) ≠ "Lieutenant Colonel" := by
  refine ⟨by decide, by decide, by decide, by decide⟩

/-- C5 as amended: `"Lieutenant Colonel"` does win over the shorter names
it contains (`"Lieutenant"`, `"Colonel"`), but only provided neither of
the two rank names placed earlier in the chain — `"Captain"` and
`"Major"` — occurs in the text. -/
theorem c5_amended_priority (content username : String)
    (h1 : pyIn "Lieutenant Colonel".toList content.toList = true)
    (h2 : pyIn "Captain".toList content.toList = false)
    (h3 : pyIn "Major".toList content.toList = false) :
    (parse_jeffrie_response content username).rank = "Lieutenant Colonel" := by
  simp at h1 h2 h3
  simp [parse_jeffrie_response, h1, h2, h3]

/-- Witness for C5 on the text `"Lieutenant Colonel"`. -/
theorem c5_witness :
    pyIn "Lieutenant Colonel".toList ("Lieutenant Colonel" : String).toList = true ∧
    pyIn "Captain".toList ("Lieutenant Colonel" : String).toList = false ∧
    pyIn "Major".toList ("Lieutenant Colonel" : String).toList = false ∧
    (parse_jeffrie_response "Lieutenant Colonel" "player").rank =
      "Lieutenant Colonel" :=
  ⟨by decide, by decide, by decide,
   c5_amended_priority "Lieutenant Colonel" "player" (by decide) (by decide)
     (by decide)⟩

/-! ## Claim C2 -/

/-- C2 counterexample: a successfully fetched page whose text reads
`"alice rank: banana"` passes the validity check (it contains the
username), the regex extraction stages the free-text rank `"Banana"`, no
experience token rescues it, and the monitoring path persists it through
`update_member_status` — a rank outside the fixed vocabulary reaches the
store. -/
theorem c2_counterexample :
    ((findMember
        (check_player_status ⟨true, [⟨"alice", "Unknown", false, 0⟩]⟩ ⟨0, 0⟩ 5
          [some ⟨"alice rank: banana", false, false⟩] [] "alice").1
        "alice").map fun m => m.rank) = some "Banana" ∧
    "Banana" ∉ rankVocab := by
  refine ⟨by decide, by decide⟩

/-- C2 as amended: every rank the engine can persist that does NOT come
from the web-extraction free-text staging path is in the fixed
vocabulary — the identity overrides and the synthetic fallback only emit
vocabulary ranks, and any experience-derived rank is a vocabulary rank;
but the web-extraction path itself may hand the store free text. -/
theorem c2_amended_vocabulary :
    (∀ (g : RNGState) (eu alt : List (Option Page)) (u : String),
      search_protanki_eu u eu = none → search_alternative_sites u alt = none →
      (get_current_player_data g eu alt u).1.rank ∈ rankVocab) ∧
    (∀ e : Nat, get_rank_from_experience (some e) ∈ rankVocab) := by
  constructor
  · intro g eu alt u h1 h2
    by_cases hk : pyUpper u = "K.O"
    · have : (get_current_player_data g eu alt u).1.rank = "Captain" := by
        unfold get_current_player_data
        rw [if_pos hk]
      rw [this]; decide
    · by_cases hg : pyUpper u = "GOAT"
      · have : (get_current_player_data g eu alt u).1.rank = "Master Sergeant" := by
          unfold get_current_player_data
          rw [if_neg hk, if_pos hg]
        rw [this]; decide
      · rw [get_current_else g eu alt u hk hg, get_player_info_none g eu alt u h1 h2]
        simp only [generate_realistic_data, generateFromDraws]
        exact getD_rankNames_mem _
  · exact get_rank_mem_vocab

/-- Witness for C2 with no reachable web endpoint and member `"Bob"`. -/
theorem c2_witness :
    search_protanki_eu "Bob" [] = none ∧
    search_alternative_sites "Bob" [] = none ∧
    (get_current_player_data ⟨0, 0⟩ [] [] "Bob").1.rank ∈ rankVocab ∧
    get_rank_from_experience (some 0) ∈ rankVocab :=
  ⟨rfl, rfl, c2_amended_vocabulary.1 ⟨0, 0⟩ [] [] "Bob" rfl rfl,
   c2_amended_vocabulary.2 0⟩

/-! ## Claim C3 -/

/-- C3 counterexample: the synthetic generator can draw the rank
`"Recruit"` (index 0, weight 5 > 0) together with the maximal
`randint(0, 2000)` offset 2000; the resulting record carries
`experience = 2000`, whose rank-table lookup is `"Gefreiter"`, not the
record's `"Recruit"` — experience does not override the chosen rank on
this path. -/
theorem c3_counterexample :
    (0 : Nat) < 30 ∧ (2000 : Nat) ≤ 2000 ∧
    (generateFromDraws "Alice" 0 false 2000).experience = some 2000 ∧
    (generateFromDraws "Alice" 0 false 2000).rank = "Recruit" ∧
    get_rank_from_experience (some 2000) = "Gefreiter" ∧
    ("Recruit" : String) ≠ "Gefreiter" := by
  refine ⟨by decide, by decide, by decide, by decide, by decide, by decide⟩

/-- C3 as amended: on the web-extraction path a present experience field
does determine the rank through the table lookup; on the synthetic path
the experience field instead equals the chosen rank's base experience
plus the drawn offset (which may cross into the next rank's range). -/
theorem c3_amended_experience_authoritative :
    (∀ (p : Page) (u : String) (e : Nat),
      (extract_player_data p u).experience = some e →
      (extract_player_data p u).rank = get_rank_from_experience (some e)) ∧
    (∀ (u : String) (idx : Nat) (onl : Bool) (off : Nat),
      (generateFromDraws u idx onl off).experience =
        some (rankExpLookup (rankNames.getD idx "Recruit") + off)) := by
  constructor
  · intro p u e h
    simp only [extract_player_data] at h ⊢
    rcases hm : (searchCapture "experience".toList Char.isDigit
        ((pyLower p.text).toList)).map digitsToNat with _ | e2
    · rw [hm] at h
      simp at h
    · rw [hm] at h
      simp at h ⊢
      simp [h]
  · intro u idx onl off
    rfl

/-- Witness for C3 on a page whose text carries an experience token. -/
theorem c3_witness :
    (extract_player_data ⟨"experience: 2000", false, false⟩ "x").experience =
      some 2000 ∧
    (extract_player_data ⟨"experience: 2000", false, false⟩ "x").rank =
      get_rank_from_experience (some 2000) :=
  ⟨by decide,
   c3_amended_experience_authoritative.1 ⟨"experience: 2000", false, false⟩ "x"
     2000 (by decide)⟩

/-! ## Store and cadence helper lemmas -/

theorem find?_cons_pos {α : Type} (p : α → Bool) (a : α) (l : List α)
    (h : p a = true) : (a :: l).find? p = some a := by
  simp [List.find?, h]

theorem find?_cons_neg {α : Type} (p : α → Bool) (a : α) (l : List α)
    (h : p a = false) : (a :: l).find? p = l.find? p := by
  simp [List.find?, h]

theorem updFirst_cons (u r : String) (o : Bool) (now : Int) (m0 : MemberRec)
    (rest : List MemberRec) :
    updFirst u r o now (m0 :: rest) =
      if m0.username == u then
        (true, { m0 with rank := r, is_online := o, last_updated := now } :: rest)
      else ((updFirst u r o now rest).1, m0 :: (updFirst u r o now rest).2) := rfl

theorem find?_updFirst (u r : String) (o : Bool) (now : Int) :
    ∀ (ms : List MemberRec) (m : MemberRec),
      ms.find? (fun x => x.username == u) = some m →
      (updFirst u r o now ms).2.find? (fun x => x.username == u) =
        some { m with rank := r, is_online := o, last_updated := now } := by
  intro ms
  induction ms with
  | nil => intro m h; simp at h
  | cons m0 rest ih =>
    intro m h
    cases hb : m0.username == u with
    | true =>
      rw [find?_cons_pos (fun x => x.username == u) m0 rest hb] at h
      have hm : m0 = m := Option.some.inj h
      subst hm
      have e : (updFirst u r o now (m0 :: rest)).2 =
          { m0 with rank := r, is_online := o, last_updated := now } :: rest := by
        rw [updFirst_cons, if_pos hb]
      rw [e, find?_cons_pos (fun x => x.username == u)
        { m0 with rank := r, is_online := o, last_updated := now } rest hb]
    | false =>
      rw [find?_cons_neg (fun x => x.username == u) m0 rest hb] at h
      have e : (updFirst u r o now (m0 :: rest)).2 =
          m0 :: (updFirst u r o now rest).2 := by
        rw [updFirst_cons, if_neg (by simp [hb])]
      rw [e, find?_cons_neg (fun x => x.username == u) m0 _ hb]
      exact ih m h

theorem lookupLC_cons (w : String) (s : Int) (rest : List (String × Int))
    (u : String) :
    lookupLC ((w, s) :: rest) u = if w == u then some s else lookupLC rest u := by
  cases hw : w == u with
  | true =>
    unfold lookupLC
    rw [find?_cons_pos (fun p => p.1 == u) (w, s) rest hw, if_pos rfl]
    rfl
  | false =>
    unfold lookupLC
    rw [find?_cons_neg (fun p => p.1 == u) (w, s) rest hw, if_neg (by simp)]

theorem setLC_cons (w : String) (s : Int) (rest : List (String × Int))
    (v : String) (t : Int) :
    setLC ((w, s) :: rest) v t =
      if w == v then (v, t) :: rest else (w, s) :: setLC rest v t := rfl

theorem lookupLC_setLC_ne (lc : List (String × Int)) (v : String) (t : Int)
    (u : String) (h : (v == u) = false) :
    lookupLC (setLC lc v t) u = lookupLC lc u := by
  induction lc with
  | nil =>
    show lookupLC [(v, t)] u = lookupLC [] u
    rw [lookupLC_cons, if_neg (by simp [h])]
  | cons p rest ih =>
    obtain ⟨w, s⟩ := p
    cases hw : w == v with
    | true =>
      have hv : w = v := eq_of_beq hw
      subst hv
      rw [setLC_cons, if_pos (by simp), lookupLC_cons, lookupLC_cons]
      simp [h]
    | false =>
      rw [setLC_cons, if_neg (by simp [hw]), lookupLC_cons, lookupLC_cons, ih]

theorem check_all_players_nil (eu alt : String → List (Option Page))
    (lc : List (String × Int)) (dbs : DBState) (g : RNGState) :
    check_all_players eu alt [] lc dbs g = ⟨lc, dbs, g, []⟩ := rfl

theorem check_all_players_cons (eu alt : String → List (Option Page))
    (v : String) (now : Int) (rest lc : List (String × Int)) (dbs : DBState)
    (g : RNGState) :
    check_all_players eu alt ((v, now) :: rest) lc dbs g =
      if member_due (lookupLC lc v) now then
        { (check_all_players eu alt rest (setLC lc v now)
            (check_player_status dbs g now (eu v) (alt v) v).1
            (check_player_status dbs g now (eu v) (alt v) v).2) with
          checked := v :: (check_all_players eu alt rest (setLC lc v now)
            (check_player_status dbs g now (eu v) (alt v) v).1
            (check_player_status dbs g now (eu v) (alt v) v).2).checked }
      else check_all_players eu alt rest lc dbs g := rfl

theorem pass_skips_recent (eu alt : String → List (Option Page))
    (entries : List (String × Int)) (u : String) (T : Int) :
    ∀ (lc : List (String × Int)) (dbs : DBState) (g : RNGState),
      lookupLC lc u = some T →
      (∀ p ∈ entries, p.1 = u → p.2 - T < 60) →
      u ∉ (check_all_players eu alt entries lc dbs g).checked ∧
      lookupLC (check_all_players eu alt entries lc dbs g).lastCheck u = some T := by
  induction entries with
  | nil =>
    intro lc dbs g hT hall
    rw [check_all_players_nil]
    exact ⟨by simp, hT⟩
  | cons p rest ih =>
    intro lc dbs g hT hall
    obtain ⟨v, now⟩ := p
    by_cases hdue : member_due (lookupLC lc v) now = true
    · have hvu : (v == u) = false := by
        by_cases hv : v = u
        · subst hv
          have hnow : now - T < 60 := hall (v, now) (List.mem_cons_self _ _) rfl
          rw [hT] at hdue
          simp [member_due] at hdue
          omega
        · exact beq_eq_false_iff_ne.mpr hv
      have hT2 : lookupLC (setLC lc v now) u = some T := by
        rw [lookupLC_setLC_ne _ _ _ _ hvu]
        exact hT
      obtain ⟨ihA, ihB⟩ := ih (setLC lc v now)
        (check_player_status dbs g now (eu v) (alt v) v).1
        (check_player_status dbs g now (eu v) (alt v) v).2 hT2
        (fun p hp => hall p (List.mem_cons_of_mem _ hp))
      rw [check_all_players_cons, if_pos hdue]
      constructor
      · intro hmem
        rcases List.mem_cons.mp hmem with huv | hm2
        · rw [huv] at hvu
          simp at hvu
        · exact ihA hm2
      · exact ihB
    · rw [check_all_players_cons, if_neg hdue]
      exact ih lc dbs g hT (fun p hp => hall p (List.mem_cons_of_mem _ hp))

theorem force_check_persists (dbs : DBState) (g : RNGState) (now : Int)
    (eu alt : List (Option Page)) (u : String) (m : MemberRec)
    (hi : dbs.initialized = true) (hf : findMember dbs u = some m) :
    (force_check_player dbs g now eu alt u).1 =
      (get_current_player_data g eu alt u).1 ∧
    findMember (force_check_player dbs g now eu alt u).2.1 u =
      some { m with rank := (get_current_player_data g eu alt u).1.rank,
                    is_online := (get_current_player_data g eu alt u).1.is_online,
                    last_updated := now } := by
  have e : force_check_player dbs g now eu alt u =
      ((get_current_player_data g eu alt u).1,
       { dbs with members := (updFirst u (get_current_player_data g eu alt u).1.rank
           (get_current_player_data g eu alt u).1.is_online now dbs.members).2 },
       (get_current_player_data g eu alt u).2) := by
    unfold force_check_player update_member_status
    simp only [hi, if_true]
  rw [e]
  exact ⟨rfl, find?_updFirst u _ _ now dbs.members m hf⟩

/-! ## Claim C4 -/

/-- C4: a member whose cadence entry records a check at time `T` is
skipped by every pass whose clock readings for that member stay below
`T + 60` (and its cadence entry survives the pass unchanged), while
`force_check_player` takes no cadence input at all: whenever the store is
live and the member exists it looks the member up and persists the result
immediately, whatever the times. -/
theorem c4_cadence_and_force_check :
    (∀ (eu alt : String → List (Option Page)) (entries lc : List (String × Int))
        (dbs : DBState) (g : RNGState) (u : String) (T : Int),
      lookupLC lc u = some T →
      (∀ p ∈ entries, p.1 = u → p.2 - T < 60) →
      u ∉ (check_all_players eu alt entries lc dbs g).checked ∧
      lookupLC (check_all_players eu alt entries lc dbs g).lastCheck u = some T) ∧
    (∀ (dbs : DBState) (g : RNGState) (now : Int) (eu alt : List (Option Page))
        (u : String) (m : MemberRec),
      dbs.initialized = true → findMember dbs u = some m →
      (force_check_player dbs g now eu alt u).1 =
        (get_current_player_data g eu alt u).1 ∧
      findMember (force_check_player dbs g now eu alt u).2.1 u =
        some { m with rank := (get_current_player_data g eu alt u).1.rank,
                      is_online := (get_current_player_data g eu alt u).1.is_online,
                      last_updated := now }) :=
  ⟨fun eu alt entries lc dbs g u T hT hall =>
      pass_skips_recent eu alt entries u T lc dbs g hT hall,
   fun dbs g now eu alt u m hi hf =>
      force_check_persists dbs g now eu alt u m hi hf⟩

/-- Witness for C4: member `"Bob"`, checked at time 0, is skipped by a
pass reading clock 30, and force-checking `"Bob"` on a live store
persists the looked-up record at once. -/
theorem c4_witness :
    lookupLC [("Bob", 0)] "Bob" = some 0 ∧
    (∀ p ∈ ([("Bob", 30)] : List (String × Int)), p.1 = "Bob" → p.2 - 0 < 60) ∧
    "Bob" ∉ (check_all_players (fun _ => []) (fun _ => []) [("Bob", 30)]
      [("Bob", 0)] ⟨true, [⟨"Bob", "Unknown", false, 0⟩]⟩ ⟨0, 0⟩).checked ∧
    lookupLC (check_all_players (fun _ => []) (fun _ => []) [("Bob", 30)]
      [("Bob", 0)] ⟨true, [⟨"Bob", "Unknown", false, 0⟩]⟩ ⟨0, 0⟩).lastCheck "Bob" =
      some 0 ∧
    (DBState.mk true [⟨"Bob", "Unknown", false, 0⟩]).initialized = true ∧
    findMember ⟨true, [⟨"Bob", "Unknown", false, 0⟩]⟩ "Bob" =
      some ⟨"Bob", "Unknown", false, 0⟩ ∧
    findMember (force_check_player ⟨true, [⟨"Bob", "Unknown", false, 0⟩]⟩ ⟨0, 0⟩ 3
        [] [] "Bob").2.1 "Bob" =
      some { MemberRec.mk "Bob" "Unknown" false 0 with
             rank := (get_current_player_data ⟨0, 0⟩ [] [] "Bob").1.rank,
             is_online := (get_current_player_data ⟨0, 0⟩ [] [] "Bob").1.is_online,
             last_updated := 3 } := by
  have h1 : lookupLC [("Bob", 0)] "Bob" = some 0 := by decide
  have h2 : ∀ p ∈ ([("Bob", 30)] : List (String × Int)), p.1 = "Bob" →
      p.2 - 0 < 60 := by decide
  have h3 := c4_cadence_and_force_check.1 (fun _ => []) (fun _ => []) [("Bob", 30)]
    [("Bob", 0)] ⟨true, [⟨"Bob", "Unknown", false, 0⟩]⟩ ⟨0, 0⟩ "Bob" 0 h1 h2
  have h4 : findMember ⟨true, [⟨"Bob", "Unknown", false, 0⟩]⟩ "Bob" =
      some ⟨"Bob", "Unknown", false, 0⟩ := by decide
  have h5 := c4_cadence_and_force_check.2 ⟨true, [⟨"Bob", "Unknown", false, 0⟩]⟩
    ⟨0, 0⟩ 3 [] [] "Bob" ⟨"Bob", "Unknown", false, 0⟩ rfl h4
  exact ⟨h1, h2, h3.1, h3.2, rfl, h4, h5.2⟩

/-! ## Claim C1 -/

/-- C1 counterexample: with a peer-bot reply available (rank
`"General"`) and a web page reporting rank `"Private"`, the engine
persists `"Private"` — the spec's four-strategy chain, which consults
PeerBotQuery before WebLookup and takes the first non-unavailable result,
would have returned `"General"`.  The monitoring path never invokes the
peer-bot strategy. -/
theorem c1_counterexample :
    ((findMember
        (check_player_status ⟨true, [⟨"Alice", "Unknown", false, 0⟩]⟩ ⟨0, 0⟩ 7
          [some ⟨"alice rank: private", false, false⟩] [] "Alice").1
        "Alice").map fun m => m.rank) = some "Private" ∧
    (specChain "Alice"
      (some { username := "Alice", rank := "General", is_online := true })
      (webResult [some ⟨"alice rank: private", false, false⟩] [] "Alice")
      (generate_realistic_data ⟨0, 0⟩ "Alice").1).rank = "General" ∧
    ("Private" : String) ≠ "General" := by
  refine ⟨by decide, by decide, by decide⟩

/-- C1 as amended: the engine's chain is identity overrides → WebLookup →
SyntheticFallback — it behaves exactly like the spec's chain with
PeerBotQuery treated as always unavailable (that strategy is defined in
the source but never invoked on the monitoring path); and when both web
searches are unavailable, the persisted record is the synthetic
fallback's non-error output, so a due member is never left unchecked. -/
theorem c1_amended_chain :
    (∀ (g : RNGState) (eu alt : List (Option Page)) (u : String),
      (get_current_player_data g eu alt u).1 =
        specChain u none (webResult eu alt u) (generate_realistic_data g u).1) ∧
    (∀ (g : RNGState) (eu alt : List (Option Page)) (u : String) (dbs : DBState)
        (now : Int) (m : MemberRec),
      search_protanki_eu u eu = none → search_alternative_sites u alt = none →
      dbs.initialized = true → findMember dbs u = some m →
      pyUpper u ≠ "K.O" → pyUpper u ≠ "GOAT" →
      findMember (check_player_status dbs g now eu alt u).1 u =
        some { m with rank := (generate_realistic_data g u).1.rank,
                      is_online := (generate_realistic_data g u).1.is_online,
                      last_updated := now }) := by
  constructor
  · intro g eu alt u
    by_cases hk : pyUpper u = "K.O"
    · unfold get_current_player_data specChain
      rw [if_pos hk, if_pos hk]
    · by_cases hg : pyUpper u = "GOAT"
      · unfold get_current_player_data specChain
        rw [if_neg hk, if_pos hg, if_neg hk, if_pos hg]
      · rw [get_current_else g eu alt u hk hg]
        unfold specChain
        rw [if_neg hk, if_neg hg]
        unfold get_player_info webResult
        rcases h1 : search_protanki_eu u eu with _ | p1
        · rcases h2 : search_alternative_sites u alt with _ | p2
          · simp [Option.orElse]
          · simp [Option.orElse]
        · simp [Option.orElse]
  · intro g eu alt u dbs now m h1 h2 hi hf hk hg
    have hval : (get_current_player_data g eu alt u).1 =
        (generate_realistic_data g u).1 := by
      rw [get_current_else g eu alt u hk hg, get_player_info_none g eu alt u h1 h2]
    have e : (check_player_status dbs g now eu alt u).1 =
        { dbs with members := (updFirst u (get_current_player_data g eu alt u).1.rank
            (get_current_player_data g eu alt u).1.is_online now dbs.members).2 } := by
      unfold check_player_status update_member_status
      simp only [hi, if_true]
    rw [e, hval]
    exact find?_updFirst u _ _ now dbs.members m hf

/-- Witness for C1 with no reachable web endpoint and member `"Bob"`:
the synthetic record is what gets persisted. -/
theorem c1_witness :
    search_protanki_eu "Bob" [] = none ∧
    search_alternative_sites "Bob" [] = none ∧
    (DBState.mk true [⟨"Bob", "Unknown", false, 0⟩]).initialized = true ∧
    findMember ⟨true, [⟨"Bob", "Unknown", false, 0⟩]⟩ "Bob" =
      some ⟨"Bob", "Unknown", false, 0⟩ ∧
    pyUpper "Bob" ≠ "K.O" ∧ pyUpper "Bob" ≠ "GOAT" ∧
    findMember (check_player_status ⟨true, [⟨"Bob", "Unknown", false, 0⟩]⟩
        ⟨0, 0⟩ 9 [] [] "Bob").1 "Bob" =
      some { MemberRec.mk "Bob" "Unknown" false 0 with
             rank := (generate_realistic_data ⟨0, 0⟩ "Bob").1.rank,
             is_online := (generate_realistic_data ⟨0, 0⟩ "Bob").1.is_online,
             last_updated := 9 } :=
  ⟨rfl, rfl, rfl, by decide, by decide, by decide,
   c1_amended_chain.2 ⟨0, 0⟩ [] [] "Bob" ⟨true, [⟨"Bob", "Unknown", false, 0⟩]⟩ 9
     ⟨"Bob", "Unknown", false, 0⟩ rfl rfl rfl (by decide) (by decide) (by decide)⟩

/-! ## Claim C10 -/

/-- C10: `force_check_player` is a total function of its inputs (it never
raises to the caller); when the lookup-and-persist path raises — in this
embedding the store access, which throws on an uninitialized store, is
the raising step — the call returns the default `Recruit`/offline record
for the username and hands the store back exactly as it was: no
roster-store write is performed by that call. -/
theorem c10_force_check_never_raises :
    ∀ (dbs : DBState) (g : RNGState) (now : Int) (eu alt : List (Option Page))
      (u : String),
      dbs.initialized = false →
      force_check_player dbs g now eu alt u =
        ({ username := u, rank := "Recruit", is_online := false }, dbs,
         (get_current_player_data g eu alt u).2) := by
  intro dbs g now eu alt u h
  unfold force_check_player update_member_status
  simp [h]

/-- Witness for C10 on an uninitialized store. -/
theorem c10_witness :
    (DBState.mk false []).initialized = false ∧
    force_check_player ⟨false, []⟩ ⟨0, 0⟩ 0 [] [] "Bob" =
      ({ username := "Bob", rank := "Recruit", is_online := false }, ⟨false, []⟩,
       (get_current_player_data ⟨0, 0⟩ [] [] "Bob").2) :=
  ⟨rfl, c10_force_check_never_raises ⟨false, []⟩ ⟨0, 0⟩ 0 [] [] "Bob" rfl⟩
